import Mathlib

/-!
Verification of `SerialStreamBuf::Implementation` (src/src/SerialStreamBuf.cc).

The C++ class is embedded shallowly: the object fields (`mFileDescriptor`,
`mPutbackAvailable`, `mPutbackChar`, `mOldPortSettings`) together with the
kernel-side state they interact with (the live `termios` settings and the
fcntl file-status flags) form a `SerialState`.  Every member function becomes
a Lean function from the state (plus its arguments) to a pair of an
`Except Err` outcome — `Except.error` models a thrown C++ exception — and the
state after the call.  Outcomes of the underlying OS calls (`read`, `write`,
`tcgetattr`, `tcsetattr`, `tcflush`, `fcntl`, `open`) are nondeterministic at
this level; each call site takes the outcome of that call as an explicit
oracle argument (`Bool` for success/failure of settings calls, `Read1` /
`ReadBytes` for the data delivered by `read`, `Int` for the byte count of
`write` and for the descriptor returned by `open`).
-/

namespace LibSerial

/-! ## OS-level constants (Linux numeric values) -/

def O_RDONLY : Nat := 0
def O_WRONLY : Nat := 1
def O_RDWR : Nat := 2
def O_NOCTTY : Nat := 256
def O_NONBLOCK : Nat := 2048

def IGNBRK : Nat := 1
def IGNPAR : Nat := 4
def INPCK : Nat := 16
def ISTRIP : Nat := 32
def IXON : Nat := 1024
def IXOFF : Nat := 4096

def CREAD : Nat := 128
def CLOCAL : Nat := 2048
def CSIZE : Nat := 48
def CS8 : Nat := 48
def CSTOPB : Nat := 64
def PARENB : Nat := 256
def PARODD : Nat := 512
def CRTSCTS : Nat := 2147483648
def B115200 : Nat := 4098

def CTRL_Q : Nat := 17
def CTRL_S : Nat := 19
def POSIX_VDISABLE : Nat := 0

/-- `std::ios_base::in` (libstdc++ numeric value of the openmode bit). -/
def ios_in : Nat := 8

/-- `std::ios_base::out` (libstdc++ numeric value of the openmode bit). -/
def ios_out : Nat := 16

/-- `x &~ m` on non-negative flag words: clear the bits of `m` in `x`. -/
def andNot (x m : Nat) : Nat := x - Nat.land x m

/-! ## Data model -/

/-- The fields of the POSIX `termios` structure that the source reads or
writes.  The `c_cc` array is represented by its four used slots
(`VMIN`, `VTIME`, `VSTART`, `VSTOP`). -/
structure Termios where
  c_iflag : Nat
  c_oflag : Nat
  c_cflag : Nat
  c_lflag : Nat
  c_line : Nat
  c_ispeed : Nat
  c_ospeed : Nat
  vmin : Nat
  vtime : Nat
  vstart : Nat
  vstop : Nat
deriving DecidableEq, Repr

def zeroTermios : Termios := ⟨0, 0, 0, 0, 0, 0, 0, 0, 0, 0, 0⟩

/-- The state of one `SerialStreamBuf::Implementation` object together with
the kernel-side state of the device it is attached to. -/
structure SerialState where
  mFileDescriptor : Int
  mPutbackAvailable : Bool
  mPutbackChar : Nat
  mOldPortSettings : Termios
  /-- The live in-kernel `termios` settings of the device
  (what `tcgetattr` returns and `tcsetattr` writes). -/
  kernelSettings : Termios
  /-- The fcntl file-status flags of the open descriptor
  (what `fcntl F_GETFL` returns and `fcntl F_SETFL` writes). -/
  kernelFlags : Nat
deriving DecidableEq, Repr

/-- The exceptions thrown by the source.  `RuntimeError` stands for
`std::runtime_error`, `InvalidArgument` for `std::invalid_argument`. -/
inductive Err where
  | NotOpen : Err
  | AlreadyOpen : Err
  | OpenFailed : Err
  | RuntimeError : Err
  | InvalidArgument : Err
deriving DecidableEq, Repr

/-- Modelled from the spec: the `FlowControl` enumeration is declared in a
header that is not under src/; its domain per the spec is
{NONE, SOFTWARE, HARDWARE} plus an INVALID sentinel (DEFAULT is an alias
of NONE). -/
inductive FlowControl where
  | FLOW_CONTROL_HARDWARE : FlowControl
  | FLOW_CONTROL_SOFTWARE : FlowControl
  | FLOW_CONTROL_NONE : FlowControl
  | FLOW_CONTROL_INVALID : FlowControl
deriving DecidableEq, Repr

/-- Modelled from the spec: the `Parity` enumeration is declared in a header
that is not under src/; its domain per the spec is {NONE, ODD, EVEN} plus an
INVALID sentinel (DEFAULT is an alias of NONE). -/
inductive Parity where
  | PARITY_EVEN : Parity
  | PARITY_ODD : Parity
  | PARITY_NONE : Parity
  | PARITY_INVALID : Parity
deriving DecidableEq, Repr

/-- Modelled from the spec: the `StopBits` enumeration is declared in a
header that is not under src/; its domain per the spec is {1, 2}, with an
INVALID sentinel reaching the setter's `default` case (DEFAULT is an alias
of 1). -/
inductive StopBits where
  | STOP_BITS_1 : StopBits
  | STOP_BITS_2 : StopBits
  | STOP_BITS_INVALID : StopBits
deriving DecidableEq, Repr

/-- Outcome of a one-byte `read` call: an error (`retval == -1`), zero bytes
(`retval == 0`), or one byte delivered (`retval == 1`). -/
inductive Read1 where
  | err : Read1
  | noData : Read1
  | byte : Nat → Read1
deriving DecidableEq, Repr

/-- Outcome of a multi-byte `read` call: an error (`retval == -1`) or the
list of bytes delivered (`retval` is its length). -/
inductive ReadBytes where
  | err : ReadBytes
  | bytes : List Nat → ReadBytes
deriving DecidableEq, Repr

/-- `traits_type::eof()` for `char_traits\x3cchar\x3e`. -/
def traitsEof : Int := -1

/-- `traits_type::to_int_type` applied to a byte value. -/
def toIntType (b : Nat) : Int := (b : Int)

/-- `traits_type::to_char_type` on an `int_type`, composed with the
byte-valued reading of the stored `char`. -/
def toCharType (c : Int) : Nat := (c % 256).toNat

/-- `traits_type::not_eof`. -/
def notEof (c : Int) : Int := if c = traitsEof then 0 else c

/-- Result of a member function: the outcome (`Except.error` = thrown
exception) and the object/kernel state after the call. -/
abbrev Res (α : Type) : Type := Except Err α × SerialState

/-- Exception propagation: run the continuation only if no exception was
thrown, threading the state. -/
def bindRes {α β : Type} (r : Res α) (f : α → SerialState → Res β) : Res β :=
  match r with
  | (Except.error e, st) => (Except.error e, st)
  | (Except.ok a, st) => f a st

/-! ## The operations -/

/-- `Implementation::IsOpen`. -/
def IsOpen (st : SerialState) : Bool := st.mFileDescriptor != -1

/-- `Implementation::Close`.  Oracles: success of the restoring `tcsetattr`
and of the `close` system call. -/
def Close (st : SerialState) (tcsetOK closeOK : Bool) : Res Unit :=
  if !(IsOpen st) then (.error .NotOpen, st)
  else if !tcsetOK then (.error .RuntimeError, st)
  else
    let st1 := { st with kernelSettings := st.mOldPortSettings }
    if !closeOK then (.error .RuntimeError, st1)
    else (.ok (), { st1 with mFileDescriptor := -1 })

/-- `Implementation::FlushInputBuffer`. -/
def FlushInputBuffer (st : SerialState) (flushOK : Bool) : Res Unit :=
  if !(IsOpen st) then (.error .NotOpen, st)
  else if !flushOK then (.error .RuntimeError, st)
  else (.ok (), st)

/-- `Implementation::FlushOutputBuffer`. -/
def FlushOutputBuffer (st : SerialState) (flushOK : Bool) : Res Unit :=
  if !(IsOpen st) then (.error .NotOpen, st)
  else if !flushOK then (.error .RuntimeError, st)
  else (.ok (), st)

/-- `Implementation::FlushIOBuffers`. -/
def FlushIOBuffers (st : SerialState) (flushOK : Bool) : Res Unit :=
  if !(IsOpen st) then (.error .NotOpen, st)
  else if !flushOK then (.error .RuntimeError, st)
  else (.ok (), st)

/-- `Implementation::IsDataAvailable`.  Oracles: the return value of the
`FIONREAD` ioctl and the byte count it reports. -/
def IsDataAvailable (st : SerialState) (ioctlRes numBytes : Int) : Res Bool :=
  if !(IsOpen st) then (.error .NotOpen, st)
  else if 0 ≤ ioctlRes ∧ 0 < numBytes then (.ok true, st)
  else (.ok false, st)

/-- `Implementation::SetPortBlockingStatus` (private; no open check in the
source).  Oracle: success of the `fcntl F_SETFL` call. -/
def SetPortBlockingStatus (st : SerialState) (blockingStatus setOK : Bool) :
    Res Unit :=
  let flags := st.kernelFlags
  if blockingStatus then
    if !setOK then (.error .RuntimeError, st)
    else (.ok (), { st with kernelFlags := andNot flags O_NONBLOCK })
  else
    if !setOK then (.error .RuntimeError, st)
    else (.ok (), { st with kernelFlags := Nat.lor flags O_NONBLOCK })

/-- `Implementation::SetBaudRate`.  The `BaudRate` enumeration values are the
`speed_t` constants themselves, so the rate is a `Nat`.  Oracles: success of
`tcgetattr`, of the `cfsetspeed`/`cfsetospeed` pair, and of `tcsetattr`. -/
def SetBaudRate (st : SerialState) (baudRate : Nat)
    (tcgetOK cfsetOK tcsetOK : Bool) : Res Unit :=
  if !(IsOpen st) then (.error .NotOpen, st)
  else if !tcgetOK then (.error .RuntimeError, st)
  else if !cfsetOK then (.error .RuntimeError, st)
  else
    let ps := st.kernelSettings
    let ps := { ps with c_ispeed := baudRate, c_ospeed := baudRate }
    if !tcsetOK then (.error .RuntimeError, st)
    else (.ok (), { st with kernelSettings := ps })

/-- `Implementation::GetBaudRate`. -/
def GetBaudRate (st : SerialState) (tcgetOK : Bool) : Res Nat :=
  if !(IsOpen st) then (.error .NotOpen, st)
  else if !tcgetOK then (.error .RuntimeError, st)
  else
    let ps := st.kernelSettings
    if ps.c_ispeed ≠ ps.c_ospeed then (.error .RuntimeError, st)
    else (.ok ps.c_ispeed, st)

/-- `Implementation::SetCharacterSize`.  The `CharacterSize` enumeration
values are the `CSx` bit patterns themselves, so the size is a `Nat`. -/
def SetCharacterSize (st : SerialState) (characterSize : Nat)
    (tcgetOK tcsetOK : Bool) : Res Unit :=
  if !(IsOpen st) then (.error .NotOpen, st)
  else if !tcgetOK then (.error .RuntimeError, st)
  else
    let ps := st.kernelSettings
    let ps :=
      if characterSize = CS8 then { ps with c_iflag := andNot ps.c_iflag ISTRIP }
      else { ps with c_iflag := Nat.lor ps.c_iflag ISTRIP }
    let ps := { ps with c_cflag := Nat.lor (andNot ps.c_cflag CSIZE) characterSize }
    if !tcsetOK then (.error .RuntimeError, st)
    else (.ok (), { st with kernelSettings := ps })

/-- `Implementation::GetCharacterSize`. -/
def GetCharacterSize (st : SerialState) (tcgetOK : Bool) : Res Nat :=
  if !(IsOpen st) then (.error .NotOpen, st)
  else if !tcgetOK then (.error .RuntimeError, st)
  else (.ok (Nat.land st.kernelSettings.c_cflag CSIZE), st)

/-- `Implementation::SetFlowControl`.  Oracles: success of the initial
`tcflush`, of `tcgetattr`, and of `tcsetattr`. -/
def SetFlowControl (st : SerialState) (flowControlType : FlowControl)
    (flushOK tcgetOK tcsetOK : Bool) : Res Unit :=
  if !(IsOpen st) then (.error .NotOpen, st)
  else if !flushOK then (.error .OpenFailed, st)
  else if !tcgetOK then (.error .RuntimeError, st)
  else
    match flowControlType with
    | .FLOW_CONTROL_HARDWARE =>
      let ps := st.kernelSettings
      let ps := { ps with
        c_iflag := andNot ps.c_iflag (Nat.lor IXON IXOFF),
        c_cflag := Nat.lor ps.c_cflag CRTSCTS,
        vstart := POSIX_VDISABLE,
        vstop := POSIX_VDISABLE }
      if !tcsetOK then (.error .RuntimeError, st)
      else (.ok (), { st with kernelSettings := ps })
    | .FLOW_CONTROL_SOFTWARE =>
      let ps := st.kernelSettings
      let ps := { ps with
        c_iflag := Nat.lor ps.c_iflag (Nat.lor IXON IXOFF),
        c_cflag := andNot ps.c_cflag CRTSCTS,
        vstart := CTRL_Q,
        vstop := CTRL_S }
      if !tcsetOK then (.error .RuntimeError, st)
      else (.ok (), { st with kernelSettings := ps })
    | .FLOW_CONTROL_NONE =>
      let ps := st.kernelSettings
      let ps := { ps with
        c_iflag := andNot ps.c_iflag (Nat.lor IXON IXOFF),
        c_cflag := andNot ps.c_cflag CRTSCTS }
      if !tcsetOK then (.error .RuntimeError, st)
      else (.ok (), { st with kernelSettings := ps })
    | .FLOW_CONTROL_INVALID => (.error .InvalidArgument, st)

/-- `Implementation::GetFlowControl`. -/
def GetFlowControl (st : SerialState) (tcgetOK : Bool) : Res FlowControl :=
  if !(IsOpen st) then (.error .NotOpen, st)
  else if !tcgetOK then (.error .RuntimeError, st)
  else
    let ps := st.kernelSettings
    if Nat.land ps.c_iflag IXON ≠ 0 ∧ Nat.land ps.c_iflag IXOFF ≠ 0 ∧
        CTRL_Q = ps.vstart ∧ CTRL_S = ps.vstop then
      (.ok .FLOW_CONTROL_SOFTWARE, st)
    else if ¬(Nat.land ps.c_iflag IXON ≠ 0 ∨ Nat.land ps.c_iflag IXOFF ≠ 0) then
      if Nat.land ps.c_cflag CRTSCTS ≠ 0 then (.ok .FLOW_CONTROL_HARDWARE, st)
      else (.ok .FLOW_CONTROL_NONE, st)
    else (.ok .FLOW_CONTROL_INVALID, st)

/-- `Implementation::SetParity`. -/
def SetParity (st : SerialState) (parityType : Parity)
    (tcgetOK tcsetOK : Bool) : Res Unit :=
  if !(IsOpen st) then (.error .NotOpen, st)
  else if !tcgetOK then (.error .RuntimeError, st)
  else
    match parityType with
    | .PARITY_EVEN =>
      let ps := st.kernelSettings
      let ps := { ps with
        c_cflag := andNot (Nat.lor ps.c_cflag PARENB) PARODD,
        c_iflag := Nat.lor ps.c_iflag INPCK }
      if !tcsetOK then (.error .RuntimeError, st)
      else (.ok (), { st with kernelSettings := ps })
    | .PARITY_ODD =>
      let ps := st.kernelSettings
      let ps := { ps with
        c_cflag := Nat.lor (Nat.lor ps.c_cflag PARENB) PARODD,
        c_iflag := Nat.lor ps.c_iflag INPCK }
      if !tcsetOK then (.error .RuntimeError, st)
      else (.ok (), { st with kernelSettings := ps })
    | .PARITY_NONE =>
      let ps := st.kernelSettings
      let ps := { ps with
        c_cflag := andNot ps.c_cflag PARENB,
        c_iflag := Nat.lor ps.c_iflag IGNPAR }
      if !tcsetOK then (.error .RuntimeError, st)
      else (.ok (), { st with kernelSettings := ps })
    | .PARITY_INVALID => (.error .InvalidArgument, st)

/-- `Implementation::GetParity`. -/
def GetParity (st : SerialState) (tcgetOK : Bool) : Res Parity :=
  if !(IsOpen st) then (.error .NotOpen, st)
  else if !tcgetOK then (.error .RuntimeError, st)
  else
    let ps := st.kernelSettings
    if Nat.land ps.c_cflag PARENB ≠ 0 then
      if Nat.land ps.c_cflag PARODD ≠ 0 then (.ok .PARITY_ODD, st)
      else (.ok .PARITY_EVEN, st)
    else (.ok .PARITY_NONE, st)

/-- `Implementation::SetNumberOfStopBits`. -/
def SetNumberOfStopBits (st : SerialState) (numberOfStopBits : StopBits)
    (tcgetOK tcsetOK : Bool) : Res Unit :=
  if !(IsOpen st) then (.error .NotOpen, st)
  else if !tcgetOK then (.error .RuntimeError, st)
  else
    match numberOfStopBits with
    | .STOP_BITS_1 =>
      let ps := st.kernelSettings
      let ps := { ps with c_cflag := andNot ps.c_cflag CSTOPB }
      if !tcsetOK then (.error .RuntimeError, st)
      else (.ok (), { st with kernelSettings := ps })
    | .STOP_BITS_2 =>
      let ps := st.kernelSettings
      let ps := { ps with c_cflag := Nat.lor ps.c_cflag CSTOPB }
      if !tcsetOK then (.error .RuntimeError, st)
      else (.ok (), { st with kernelSettings := ps })
    | .STOP_BITS_INVALID => (.error .InvalidArgument, st)

/-- `Implementation::GetNumberOfStopBits`. -/
def GetNumberOfStopBits (st : SerialState) (tcgetOK : Bool) : Res StopBits :=
  if !(IsOpen st) then (.error .NotOpen, st)
  else if !tcgetOK then (.error .RuntimeError, st)
  else if Nat.land st.kernelSettings.c_cflag CSTOPB ≠ 0 then
    (.ok .STOP_BITS_2, st)
  else (.ok .STOP_BITS_1, st)

/-- `Implementation::SetVMin`. -/
def SetVMin (st : SerialState) (vmin : Int) (tcgetOK tcsetOK : Bool) :
    Res Unit :=
  if !(IsOpen st) then (.error .NotOpen, st)
  else if vmin < 0 ∨ vmin > 255 then (.error .InvalidArgument, st)
  else if !tcgetOK then (.error .RuntimeError, st)
  else
    let ps := { st.kernelSettings with vmin := vmin.toNat }
    if !tcsetOK then (.error .RuntimeError, st)
    else (.ok (), { st with kernelSettings := ps })

/-- `Implementation::GetVMin`. -/
def GetVMin (st : SerialState) (tcgetOK : Bool) : Res Int :=
  if !(IsOpen st) then (.error .NotOpen, st)
  else if !tcgetOK then (.error .RuntimeError, st)
  else (.ok (st.kernelSettings.vmin : Int), st)

/-- `Implementation::SetVTime`. -/
def SetVTime (st : SerialState) (vtime : Int) (tcgetOK tcsetOK : Bool) :
    Res Unit :=
  if !(IsOpen st) then (.error .NotOpen, st)
  else if vtime < 0 ∨ vtime > 255 then (.error .InvalidArgument, st)
  else if !tcgetOK then (.error .RuntimeError, st)
  else
    let ps := { st.kernelSettings with vtime := vtime.toNat }
    if !tcsetOK then (.error .RuntimeError, st)
    else (.ok (), { st with kernelSettings := ps })

/-- `Implementation::GetVTime`. -/
def GetVTime (st : SerialState) (tcgetOK : Bool) : Res Int :=
  if !(IsOpen st) then (.error .NotOpen, st)
  else if !tcgetOK then (.error .RuntimeError, st)
  else (.ok (st.kernelSettings.vtime : Int), st)

/-- `Implementation::GetFileDescriptor`. -/
def GetFileDescriptor (st : SerialState) : Res Int :=
  if !(IsOpen st) then (.error .NotOpen, st)
  else (.ok st.mFileDescriptor, st)

/-! ## Composite lifecycle operations -/

/-- Modelled from the spec: the default parameter constants
(`BAUD_DEFAULT` etc.) are declared in a header that is not under src/;
per the spec the defaults are 115200 baud, 8-bit characters, no flow
control, no parity, 1 stop bit, and VMIN = VTIME = 0. -/
def BAUD_DEFAULT : Nat := B115200

def CHAR_SIZE_DEFAULT : Nat := CS8

def FLOW_CONTROL_DEFAULT : FlowControl := .FLOW_CONTROL_NONE

def PARITY_DEFAULT : Parity := .PARITY_NONE

def STOP_BITS_DEFAULT : StopBits := .STOP_BITS_1

def VMIN_DEFAULT : Int := 0

def VTIME_DEFAULT : Int := 0

/-- Oracle bundle for `SetParametersToDefault`: the outcome of each OS call
made by the function itself (`g`, `s`) and by the seven setters it chains. -/
structure DefaultsO where
  g : Bool
  s : Bool
  baud_g : Bool
  baud_cf : Bool
  baud_s : Bool
  size_g : Bool
  size_s : Bool
  flow_f : Bool
  flow_g : Bool
  flow_s : Bool
  par_g : Bool
  par_s : Bool
  stop_g : Bool
  stop_s : Bool
  vmin_g : Bool
  vmin_s : Bool
  vtime_g : Bool
  vtime_s : Bool
deriving DecidableEq, Repr

/-- `Implementation::SetParametersToDefault`. -/
def SetParametersToDefault (st : SerialState) (o : DefaultsO) : Res Unit :=
  if !(IsOpen st) then (.error .NotOpen, st)
  else if !o.g then (.error .RuntimeError, st)
  else
    let ps := st.kernelSettings
    let ps := { ps with
      c_iflag := IGNBRK,
      c_oflag := 0,
      c_cflag := Nat.lor (Nat.lor (Nat.lor B115200 CS8) CLOCAL) CREAD,
      c_lflag := 0,
      c_line := 0,
      vmin := 0,
      vtime := 0 }
    if !o.s then (.error .OpenFailed, st)
    else
      let st1 := { st with kernelSettings := ps }
      bindRes (SetBaudRate st1 BAUD_DEFAULT o.baud_g o.baud_cf o.baud_s) (fun _ st2 =>
      bindRes (SetCharacterSize st2 CHAR_SIZE_DEFAULT o.size_g o.size_s) (fun _ st3 =>
      bindRes (SetFlowControl st3 FLOW_CONTROL_DEFAULT o.flow_f o.flow_g o.flow_s) (fun _ st4 =>
      bindRes (SetParity st4 PARITY_DEFAULT o.par_g o.par_s) (fun _ st5 =>
      bindRes (SetNumberOfStopBits st5 STOP_BITS_DEFAULT o.stop_g o.stop_s) (fun _ st6 =>
      bindRes (SetVMin st6 VMIN_DEFAULT o.vmin_g o.vmin_s) (fun _ st7 =>
      SetVTime st7 VTIME_DEFAULT o.vtime_g o.vtime_s))))))

/-- Oracle bundle for `InitializeSerialPort`. -/
structure InitO where
  dflt : DefaultsO
  flush : Bool
  blk : Bool
deriving DecidableEq, Repr

/-- `Implementation::InitializeSerialPort`. -/
def InitializeSerialPort (st : SerialState) (o : InitO) : Res Unit :=
  if !(IsOpen st) then (.error .NotOpen, st)
  else
    bindRes (SetParametersToDefault st o.dflt) (fun _ st1 =>
    bindRes (FlushIOBuffers st1 o.flush) (fun _ st2 =>
    SetPortBlockingStatus st2 true o.blk))

/-- Oracle bundle for `Open`: the descriptor returned by the `open` system
call, the outcomes of the snapshot `tcgetattr`, the baseline `tcsetattr`,
the `tcflush`, and the oracles of `InitializeSerialPort`. -/
structure OpenO where
  fd : Int
  tcget : Bool
  tcset : Bool
  flush : Bool
  init : InitO
deriving DecidableEq, Repr

/-- `Implementation::Open`.  `openMode` is the `std::ios_base::openmode`
bitmask. -/
def Open (st : SerialState) (openMode : Nat) (o : OpenO) : Res Unit :=
  if IsOpen st then (.error .AlreadyOpen, st)
  else
    let flagChoice : Option Nat :=
      if openMode = Nat.lor ios_in ios_out then
        some (Nat.lor O_RDWR (Nat.lor O_NOCTTY O_NONBLOCK))
      else if openMode = ios_in then
        some (Nat.lor O_RDONLY (Nat.lor O_NOCTTY O_NONBLOCK))
      else if openMode = ios_out then
        some (Nat.lor O_WRONLY (Nat.lor O_NOCTTY O_NONBLOCK))
      else none
    match flagChoice with
    | none => (.ok (), st)
    | some flags =>
      let st1 := { st with mFileDescriptor := o.fd }
      if o.fd < 0 then (.error .OpenFailed, st1)
      else
        let st1 := { st1 with kernelFlags := flags }
        if !o.tcget then (.error .OpenFailed, st1)
        else
          let st2 := { st1 with mOldPortSettings := st1.kernelSettings }
          let ps := { zeroTermios with
            c_cflag := Nat.lor zeroTermios.c_cflag (Nat.lor CREAD CLOCAL),
            vmin := 0,
            vtime := 0 }
          if !o.tcset then (.error .OpenFailed, st2)
          else
            let st3 := { st2 with kernelSettings := ps }
            bindRes (FlushIOBuffers st3 o.flush) (fun _ st4 =>
            InitializeSerialPort st4 o.init)

/-! ## The stream-I/O adapter operations -/

/-- `Implementation::xsputn`.  Oracle: the return value of the single
underlying `write` call.  The result carries the reported count. -/
def xsputn (st : SerialState) (n : Int) (writeRes : Int) : Res Int :=
  if !(IsOpen st) then (.error .NotOpen, st)
  else if n ≤ 0 then (.ok 0, st)
  else if writeRes ≤ 0 then (.ok 0, st)
  else (.ok writeRes, st)

/-- `Implementation::xsgetn`.  Oracle: the outcome of the single underlying
`read` call.  The result carries the reported count and the bytes stored in
the output array `s` (its written prefix). -/
def xsgetn (st : SerialState) (n : Int) (osRead : ReadBytes) :
    Res (Int × List Nat) :=
  if !(IsOpen st) then (.error .NotOpen, st)
  else if n ≤ 0 then (.ok (0, []), st)
  else
    let step : Int × List Nat × SerialState :=
      if st.mPutbackAvailable then
        let st1 := { st with mPutbackAvailable := false }
        if n > 1 then
          match osRead with
          | .err => (-1, [st.mPutbackChar], st1)
          | .bytes data => ((data.length : Int) + 1, st.mPutbackChar :: data, st1)
        else
          (0, [st.mPutbackChar], st1)
      else
        match osRead with
        | .err => (-1, [], st)
        | .bytes data => ((data.length : Int), data, st)
    if step.1 ≤ 0 then (.ok (0, step.2.1), step.2.2)
    else (.ok (step.1, step.2.1), step.2.2)

/-- `Implementation::overflow`.  Oracle: the return value of the one-byte
underlying `write` call. -/
def overflow (st : SerialState) (character : Int) (writeRes : Int) : Res Int :=
  if !(IsOpen st) then (.error .NotOpen, st)
  else if character = traitsEof then (.ok traitsEof, st)
  else if writeRes ≤ 0 then (.ok traitsEof, st)
  else (.ok (notEof character), st)

/-- `Implementation::underflow`.  Oracle: the outcome of the one-byte
underlying `read` call (issued only when no putback byte is pending). -/
def underflow (st : SerialState) (osRead : Read1) : Res Int :=
  if !(IsOpen st) then (.error .NotOpen, st)
  else if st.mPutbackAvailable then
    (.ok (toIntType st.mPutbackChar), st)
  else
    match osRead with
    | .byte b =>
      (.ok (toIntType b), { st with mPutbackChar := b, mPutbackAvailable := true })
    | .err => (.ok traitsEof, st)
    | .noData => (.ok traitsEof, st)

/-- `Implementation::uflow`. -/
def uflow (st : SerialState) (osRead : Read1) : Res Int :=
  if !(IsOpen st) then (.error .NotOpen, st)
  else
    match underflow st osRead with
    | (Except.error e, st1) => (.error e, st1)
    | (Except.ok c, st1) => (.ok c, { st1 with mPutbackAvailable := false })

/-- `Implementation::pbackfail`. -/
def pbackfail (st : SerialState) (character : Int) : Res Int :=
  if !(IsOpen st) then (.error .NotOpen, st)
  else if st.mPutbackAvailable then (.ok traitsEof, st)
  else if character = traitsEof then (.ok traitsEof, st)
  else
    (.ok (notEof character),
     { st with mPutbackChar := toCharType character, mPutbackAvailable := true })

/-- `Implementation::showmanyc`.  Oracles: success of the `fcntl F_SETFL`
switch to non-blocking mode, success of the restoring `fcntl F_SETFL`, and
the outcome of the one-byte non-blocking `read`. -/
def showmanyc (st : SerialState) (setNB restoreOK : Bool) (osRead : Read1) :
    Res Int :=
  if !(IsOpen st) then (.error .NotOpen, st)
  else if st.mPutbackAvailable then (.ok 1, st)
  else
    let flags := st.kernelFlags
    if !setNB then (.ok (-1), st)
    else
      let st1 := { st with kernelFlags := Nat.lor flags O_NONBLOCK }
      let step : Int × SerialState :=
        match osRead with
        | .byte b => (1, { st1 with mPutbackChar := b, mPutbackAvailable := true })
        | .err => (0, st1)
        | .noData => (0, st1)
      if !restoreOK then (.ok (-1), step.2)
      else (.ok step.1, { step.2 with kernelFlags := flags })

/-! ## Frame lemmas: the configuration and lifecycle operations never touch
the putback slot -/

/-- The putback slot of a state: the availability flag and the stored byte. -/
def pbSlot (st : SerialState) : Bool × Nat := (st.mPutbackAvailable, st.mPutbackChar)

theorem pbSlot_bindRes {α β : Type} (r : Res α) (f : α → SerialState → Res β)
    (hf : ∀ a s1, pbSlot (f a s1).2 = pbSlot s1) :
    pbSlot (bindRes r f).2 = pbSlot r.2 := by
  rcases r with ⟨v, s⟩
  cases v with
  | error e => rfl
  | ok a => exact hf a s

theorem pbSlot_FlushIOBuffers (st : SerialState) (f : Bool) :
    pbSlot (FlushIOBuffers st f).2 = pbSlot st := by
  unfold FlushIOBuffers
  split_ifs <;> rfl

theorem pbSlot_SetPortBlockingStatus (st : SerialState) (b s : Bool) :
    pbSlot (SetPortBlockingStatus st b s).2 = pbSlot st := by
  unfold SetPortBlockingStatus
  split_ifs <;> rfl

theorem pbSlot_SetBaudRate (st : SerialState) (b : Nat) (g c s : Bool) :
    pbSlot (SetBaudRate st b g c s).2 = pbSlot st := by
  unfold SetBaudRate
  split_ifs <;> rfl

theorem pbSlot_SetCharacterSize (st : SerialState) (c : Nat) (g s : Bool) :
    pbSlot (SetCharacterSize st c g s).2 = pbSlot st := by
  unfold SetCharacterSize
  split_ifs <;> rfl

theorem pbSlot_SetFlowControl (st : SerialState) (fc : FlowControl)
    (f g s : Bool) : pbSlot (SetFlowControl st fc f g s).2 = pbSlot st := by
  unfold SetFlowControl
  cases fc <;> split_ifs <;> rfl

theorem pbSlot_SetParity (st : SerialState) (p : Parity) (g s : Bool) :
    pbSlot (SetParity st p g s).2 = pbSlot st := by
  unfold SetParity
  cases p <;> split_ifs <;> rfl

theorem pbSlot_SetNumberOfStopBits (st : SerialState) (b : StopBits)
    (g s : Bool) : pbSlot (SetNumberOfStopBits st b g s).2 = pbSlot st := by
  unfold SetNumberOfStopBits
  cases b <;> split_ifs <;> rfl

theorem pbSlot_SetVMin (st : SerialState) (v : Int) (g s : Bool) :
    pbSlot (SetVMin st v g s).2 = pbSlot st := by
  unfold SetVMin
  split_ifs <;> rfl

theorem pbSlot_SetVTime (st : SerialState) (v : Int) (g s : Bool) :
    pbSlot (SetVTime st v g s).2 = pbSlot st := by
  unfold SetVTime
  split_ifs <;> rfl

theorem pbSlot_SetParametersToDefault (st : SerialState) (o : DefaultsO) :
    pbSlot (SetParametersToDefault st o).2 = pbSlot st := by
  unfold SetParametersToDefault
  split_ifs
  · rfl
  · rfl
  · rfl
  · exact ((pbSlot_bindRes _ _ fun a1 s1 =>
      ((pbSlot_bindRes _ _ fun a2 s2 =>
        ((pbSlot_bindRes _ _ fun a3 s3 =>
          ((pbSlot_bindRes _ _ fun a4 s4 =>
            ((pbSlot_bindRes _ _ fun a5 s5 =>
              ((pbSlot_bindRes _ _ fun a6 s6 =>
                pbSlot_SetVTime _ _ _ _).trans
               (pbSlot_SetVMin _ _ _ _))).trans
             (pbSlot_SetNumberOfStopBits _ _ _ _))).trans
           (pbSlot_SetParity _ _ _ _))).trans
         (pbSlot_SetFlowControl _ _ _ _ _))).trans
       (pbSlot_SetCharacterSize _ _ _ _))).trans
     (pbSlot_SetBaudRate _ _ _ _ _))

theorem pbSlot_InitializeSerialPort (st : SerialState) (o : InitO) :
    pbSlot (InitializeSerialPort st o).2 = pbSlot st := by
  unfold InitializeSerialPort
  split_ifs
  · rfl
  · exact ((pbSlot_bindRes _ _ fun a1 s1 =>
      ((pbSlot_bindRes _ _ fun a2 s2 =>
        pbSlot_SetPortBlockingStatus _ _ _).trans
       (pbSlot_FlushIOBuffers _ _))).trans
     (pbSlot_SetParametersToDefault _ _))

theorem pbSlot_Open (st : SerialState) (m : Nat) (o : OpenO) :
    pbSlot (Open st m o).2 = pbSlot st := by
  unfold Open
  split_ifs <;>
    first
    | rfl
    | exact ((pbSlot_bindRes _ _ fun a1 s1 =>
        pbSlot_InitializeSerialPort _ _).trans (pbSlot_FlushIOBuffers _ _))

/-! ## Concrete states used for witnesses -/

/-- An open port (descriptor 3) with a putback byte 65 pending. -/
def portOpenPending : SerialState := ⟨3, true, 65, zeroTermios, zeroTermios, 0⟩

/-- An open port (descriptor 3) with no putback byte pending. -/
def portOpenEmpty : SerialState := ⟨3, false, 65, zeroTermios, zeroTermios, 0⟩

/-- A closed port (descriptor -1). -/
def portClosed : SerialState := ⟨-1, false, 0, zeroTermios, zeroTermios, 0⟩

/-! ## The claims -/

/-- Claim C1: the claim states that `xsgetn` with `n ≥ 1` and a pending
putback byte always reports a count of at least 1 (exactly 1 when `n = 1`
or when the underlying read fails).  The code disagrees: its final
`retval <= 0` collapse forgets that the putback byte was already consumed
into `s[0]`.  With a putback byte pending, `xsgetn` with `n = 1` consumes
the byte (the pending flag is cleared, the byte is placed at position 0)
yet reports 0; likewise with `n > 1` when the underlying `read` fails.
This contradicts the function's own documented contract ("returns the
number of characters actually read") and its own comment that `retval` is
incremented "to indicate that a character has been placed in s": the byte
is silently lost. -/
theorem xsgetn_pending_putback_lost :
    xsgetn portOpenPending 1 (.bytes []) =
      (.ok (0, [65]), { portOpenPending with mPutbackAvailable := false }) ∧
    xsgetn portOpenPending 5 .err =
      (.ok (0, [65]), { portOpenPending with mPutbackAvailable := false }) ∧
    xsgetn portOpenPending 5 (.bytes [66, 67]) =
      (.ok (3, [65, 66, 67]), { portOpenPending with mPutbackAvailable := false }) := by
  refine ⟨rfl, rfl, rfl⟩

/-- Claim C2: on an open port, a successful `underflow` (readOne) leaves a
putback byte pending; a second `underflow` without an intervening `uflow`
returns the identical byte and does not change the state; a following
`uflow` (readOneAdvance) returns that same byte and clears the
pending-putback flag. -/
theorem underflow_peek_uflow_advance (st st1 : SerialState) (r : Read1)
    (c : Int) (hopen : IsOpen st = true)
    (h1 : underflow st r = (.ok c, st1)) (hc : c ≠ traitsEof) :
    st1.mPutbackAvailable = true ∧
    (∀ r2 : Read1, underflow st1 r2 = (.ok c, st1)) ∧
    (∀ r3 : Read1, uflow st1 r3 = (.ok c, { st1 with mPutbackAvailable := false })) := by
  cases hav : st.mPutbackAvailable with
  | true =>
    simp only [underflow, hopen, hav, Bool.not_true, Bool.false_eq_true, if_false,
      if_true] at h1
    rw [Prod.mk.injEq, Except.ok.injEq] at h1
    obtain ⟨hcv, hstv⟩ := h1
    subst hstv
    subst hcv
    refine ⟨hav, fun r2 => ?_, fun r3 => ?_⟩
    · simp only [underflow, hopen, hav, Bool.not_true, Bool.false_eq_true, if_false,
        if_true]
    · simp only [uflow, underflow, hopen, hav, Bool.not_true, Bool.false_eq_true,
        if_false, if_true]
  | false =>
    cases r with
    | err =>
      simp only [underflow, hopen, hav, Bool.not_true, Bool.false_eq_true, if_false,
        if_true] at h1
      rw [Prod.mk.injEq, Except.ok.injEq] at h1
      exact absurd h1.1.symm hc
    | noData =>
      simp only [underflow, hopen, hav, Bool.not_true, Bool.false_eq_true, if_false,
        if_true] at h1
      rw [Prod.mk.injEq, Except.ok.injEq] at h1
      exact absurd h1.1.symm hc
    | byte b =>
      simp only [underflow, hopen, hav, Bool.not_true, Bool.false_eq_true, if_false,
        if_true] at h1
      rw [Prod.mk.injEq, Except.ok.injEq] at h1
      obtain ⟨hcv, hstv⟩ := h1
      subst hstv
      subst hcv
      have hopen1 : IsOpen { st with mPutbackChar := b, mPutbackAvailable := true } = true :=
        hopen
      refine ⟨rfl, fun r2 => ?_, fun r3 => ?_⟩
      · simp only [underflow, hopen1, Bool.not_true, Bool.false_eq_true, if_false, if_true]
      · simp only [uflow, underflow, hopen1, Bool.not_true, Bool.false_eq_true, if_false,
          if_true]

/-- Claim C2 witness: the peek/peek/advance contract at a concrete open
port with no pending byte, where the underlying read delivers byte 66. -/
theorem underflow_peek_uflow_advance_witness :
    (underflow portOpenEmpty (.byte 66)).2.mPutbackAvailable = true ∧
    (∀ r2 : Read1, underflow (underflow portOpenEmpty (.byte 66)).2 r2 =
      (.ok 66, (underflow portOpenEmpty (.byte 66)).2)) ∧
    (∀ r3 : Read1, uflow (underflow portOpenEmpty (.byte 66)).2 r3 =
      (.ok 66, { (underflow portOpenEmpty (.byte 66)).2 with mPutbackAvailable := false })) :=
  underflow_peek_uflow_advance portOpenEmpty _ (.byte 66) 66 rfl rfl (by decide)

/-- Claim C3: on an open port, `pbackfail` fails (returns eof) when a
putback byte is already pending or when the argument is the eof sentinel;
otherwise it stores the byte as pending and reports success echoing the
stored character. -/
theorem pbackfail_capacity_one (st : SerialState) (character : Int)
    (hopen : IsOpen st = true) :
    (st.mPutbackAvailable = true → pbackfail st character = (.ok traitsEof, st)) ∧
    (st.mPutbackAvailable = false → character = traitsEof →
      pbackfail st character = (.ok traitsEof, st)) ∧
    (st.mPutbackAvailable = false → 0 ≤ character → character < 256 →
      pbackfail st character =
        (.ok character,
         { st with mPutbackChar := character.toNat, mPutbackAvailable := true })) := by
  refine ⟨fun hav => ?_, fun hav he => ?_, fun hav h0 h255 => ?_⟩
  · simp only [pbackfail, hopen, hav, Bool.not_true, Bool.false_eq_true, if_false, if_true]
  · simp only [pbackfail, hopen, hav, he, Bool.not_true, Bool.false_eq_true, if_false,
      if_true]
  · have hne : character ≠ traitsEof := by
      unfold traitsEof
      omega
    have h1 : notEof character = character := if_neg hne
    have h2 : toCharType character = character.toNat := by
      unfold toCharType
      rw [Int.emod_eq_of_lt h0 h255]
    simp only [pbackfail, hopen, hav, Bool.not_true, Bool.false_eq_true, if_false, if_true,
      if_neg hne, h1, h2]

/-- Claim C3 witness: instantiation at an open port with a pending byte and
putback argument 66. -/
theorem pbackfail_capacity_one_witness :
    (portOpenPending.mPutbackAvailable = true →
      pbackfail portOpenPending 66 = (.ok traitsEof, portOpenPending)) ∧
    (portOpenPending.mPutbackAvailable = false → (66 : Int) = traitsEof →
      pbackfail portOpenPending 66 = (.ok traitsEof, portOpenPending)) ∧
    (portOpenPending.mPutbackAvailable = false → (0 : Int) ≤ 66 → (66 : Int) < 256 →
      pbackfail portOpenPending 66 =
        (.ok 66,
         { portOpenPending with mPutbackChar := (66 : Int).toNat,
                                mPutbackAvailable := true })) :=
  pbackfail_capacity_one portOpenPending 66 rfl

/-- Claim C4: on an open port, `showmanyc` returns 1 immediately (with no
state change and no system call) when a putback byte is pending; otherwise
it switches the descriptor to non-blocking mode, attempts a one-byte read,
on success stores the byte as the new pending putback and returns 1, on
failure or zero bytes returns 0, restores the prior file-status flags
before returning, and returns -1 when the initial switch or the restore
fails. -/
theorem showmanyc_probe (st : SerialState) (hopen : IsOpen st = true) :
    (st.mPutbackAvailable = true →
      ∀ (nb ro : Bool) (r : Read1), showmanyc st nb ro r = (.ok 1, st)) ∧
    (st.mPutbackAvailable = false →
      (∀ (ro : Bool) (r : Read1), showmanyc st false ro r = (.ok (-1), st)) ∧
      (∀ b : Nat, showmanyc st true true (.byte b) =
        (.ok 1, { st with mPutbackChar := b, mPutbackAvailable := true })) ∧
      (showmanyc st true true .err = (.ok 0, st)) ∧
      (showmanyc st true true .noData = (.ok 0, st)) ∧
      (∀ r : Read1, (showmanyc st true false r).1 = .ok (-1))) := by
  refine ⟨fun hav nb ro r => ?_, fun hav => ⟨fun ro r => ?_, fun b => ?_, ?_, ?_, fun r => ?_⟩⟩
  · simp only [showmanyc, hopen, hav, Bool.not_true, Bool.false_eq_true, if_false, if_true]
  · simp only [showmanyc, hopen, hav, Bool.not_true, Bool.not_false, Bool.false_eq_true,
      if_false, if_true]
  · simp only [showmanyc, hopen, hav, Bool.not_true, Bool.not_false, Bool.false_eq_true,
      if_false, if_true]
  · simp only [showmanyc, hopen, hav, Bool.not_true, Bool.not_false, Bool.false_eq_true,
      if_false, if_true]
    rw [← hav]
  · simp only [showmanyc, hopen, hav, Bool.not_true, Bool.not_false, Bool.false_eq_true,
      if_false, if_true]
    rw [← hav]
  · cases r <;>
      simp only [showmanyc, hopen, hav, Bool.not_true, Bool.not_false, Bool.false_eq_true,
        if_false, if_true]

/-- Claim C4 witness: instantiation at a concrete open port with no
pending putback byte. -/
theorem showmanyc_probe_witness :
    (portOpenEmpty.mPutbackAvailable = true →
      ∀ (nb ro : Bool) (r : Read1), showmanyc portOpenEmpty nb ro r = (.ok 1, portOpenEmpty)) ∧
    (portOpenEmpty.mPutbackAvailable = false →
      (∀ (ro : Bool) (r : Read1), showmanyc portOpenEmpty false ro r =
        (.ok (-1), portOpenEmpty)) ∧
      (∀ b : Nat, showmanyc portOpenEmpty true true (.byte b) =
        (.ok 1, { portOpenEmpty with mPutbackChar := b, mPutbackAvailable := true })) ∧
      (showmanyc portOpenEmpty true true .err = (.ok 0, portOpenEmpty)) ∧
      (showmanyc portOpenEmpty true true .noData = (.ok 0, portOpenEmpty)) ∧
      (∀ r : Read1, (showmanyc portOpenEmpty true false r).1 = .ok (-1))) :=
  showmanyc_probe portOpenEmpty rfl

/-- Claim C5: on an open port, `SetVMin`/`SetVTime` with a value in
[0, 255] write the value so that the corresponding Get returns it, while
any value outside [0, 255] (such as -1 or 256) raises `InvalidArgument`
with the device settings unchanged, before any settings write; likewise
`SetFlowControl`, `SetParity` and `SetNumberOfStopBits` given the invalid
enum value raise `InvalidArgument` and leave the settings unchanged. -/
theorem set_roundtrip_invalid_argument (st : SerialState)
    (hopen : IsOpen st = true) :
    (∀ (v : Int) (st' : SerialState), 0 ≤ v → v ≤ 255 →
      SetVMin st v true true = (.ok (), st') → GetVMin st' true = (.ok v, st')) ∧
    (∀ (v : Int) (st' : SerialState), 0 ≤ v → v ≤ 255 →
      SetVTime st v true true = (.ok (), st') → GetVTime st' true = (.ok v, st')) ∧
    (∀ (v : Int) (g s : Bool), v < 0 ∨ 255 < v →
      SetVMin st v g s = (.error .InvalidArgument, st)) ∧
    (∀ (v : Int) (g s : Bool), v < 0 ∨ 255 < v →
      SetVTime st v g s = (.error .InvalidArgument, st)) ∧
    (∀ s : Bool, SetFlowControl st .FLOW_CONTROL_INVALID true true s =
      (.error .InvalidArgument, st)) ∧
    (∀ s : Bool, SetParity st .PARITY_INVALID true s = (.error .InvalidArgument, st)) ∧
    (∀ s : Bool, SetNumberOfStopBits st .STOP_BITS_INVALID true s =
      (.error .InvalidArgument, st)) := by
  refine ⟨fun v st' h0 h255 hset => ?_, fun v st' h0 h255 hset => ?_,
    fun v g s hout => ?_, fun v g s hout => ?_, fun s => ?_, fun s => ?_, fun s => ?_⟩
  · have hrange : ¬(v < 0 ∨ v > 255) := by omega
    simp only [SetVMin, hopen, Bool.not_true, Bool.not_false, Bool.false_eq_true,
      if_false, if_true, if_neg hrange] at hset
    rw [Prod.mk.injEq] at hset
    have hst : st' = { st with kernelSettings := { st.kernelSettings with vmin := v.toNat } } :=
      hset.2.symm
    subst hst
    have hopen1 :
        IsOpen { st with kernelSettings := { st.kernelSettings with vmin := v.toNat } } =
          true := hopen
    simp only [GetVMin, hopen1, Bool.not_true, Bool.false_eq_true, if_false, if_true]
    rw [Prod.mk.injEq, Except.ok.injEq]
    exact ⟨Int.toNat_of_nonneg h0, rfl⟩
  · have hrange : ¬(v < 0 ∨ v > 255) := by omega
    simp only [SetVTime, hopen, Bool.not_true, Bool.not_false, Bool.false_eq_true,
      if_false, if_true, if_neg hrange] at hset
    rw [Prod.mk.injEq] at hset
    have hst : st' = { st with kernelSettings := { st.kernelSettings with vtime := v.toNat } } :=
      hset.2.symm
    subst hst
    have hopen1 :
        IsOpen { st with kernelSettings := { st.kernelSettings with vtime := v.toNat } } =
          true := hopen
    simp only [GetVTime, hopen1, Bool.not_true, Bool.false_eq_true, if_false, if_true]
    rw [Prod.mk.injEq, Except.ok.injEq]
    exact ⟨Int.toNat_of_nonneg h0, rfl⟩
  · have hrange : v < 0 ∨ v > 255 := by omega
    simp only [SetVMin, hopen, Bool.not_true, Bool.false_eq_true, if_false, if_true,
      if_pos hrange]
  · have hrange : v < 0 ∨ v > 255 := by omega
    simp only [SetVTime, hopen, Bool.not_true, Bool.false_eq_true, if_false, if_true,
      if_pos hrange]
  · simp only [SetFlowControl, hopen, Bool.not_true, Bool.not_false, Bool.false_eq_true,
      if_false, if_true]
  · simp only [SetParity, hopen, Bool.not_true, Bool.not_false, Bool.false_eq_true,
      if_false, if_true]
  · simp only [SetNumberOfStopBits, hopen, Bool.not_true, Bool.not_false,
      Bool.false_eq_true, if_false, if_true]

/-- Claim C5 witness: instantiation at a concrete open port. -/
theorem set_roundtrip_invalid_argument_witness :
    (∀ (v : Int) (st' : SerialState), 0 ≤ v → v ≤ 255 →
      SetVMin portOpenEmpty v true true = (.ok (), st') →
      GetVMin st' true = (.ok v, st')) ∧
    (∀ (v : Int) (st' : SerialState), 0 ≤ v → v ≤ 255 →
      SetVTime portOpenEmpty v true true = (.ok (), st') →
      GetVTime st' true = (.ok v, st')) ∧
    (∀ (v : Int) (g s : Bool), v < 0 ∨ 255 < v →
      SetVMin portOpenEmpty v g s = (.error .InvalidArgument, portOpenEmpty)) ∧
    (∀ (v : Int) (g s : Bool), v < 0 ∨ 255 < v →
      SetVTime portOpenEmpty v g s = (.error .InvalidArgument, portOpenEmpty)) ∧
    (∀ s : Bool, SetFlowControl portOpenEmpty .FLOW_CONTROL_INVALID true true s =
      (.error .InvalidArgument, portOpenEmpty)) ∧
    (∀ s : Bool, SetParity portOpenEmpty .PARITY_INVALID true s =
      (.error .InvalidArgument, portOpenEmpty)) ∧
    (∀ s : Bool, SetNumberOfStopBits portOpenEmpty .STOP_BITS_INVALID true s =
      (.error .InvalidArgument, portOpenEmpty)) :=
  set_roundtrip_invalid_argument portOpenEmpty rfl

/-- Claim C6: on an open port, `GetFlowControl` maps the device state as
follows: both software flow bits (IXON, IXOFF) set with the start/stop
control characters exactly the conventional XON/XOFF codes yields
SOFTWARE; neither software bit set and the hardware bit (CRTSCTS) set
yields HARDWARE; neither software bit set and the hardware bit clear
yields NONE; every other combination yields INVALID. -/
theorem getflowcontrol_mapping (st : SerialState) (hopen : IsOpen st = true) :
    (Nat.land st.kernelSettings.c_iflag IXON ≠ 0 →
     Nat.land st.kernelSettings.c_iflag IXOFF ≠ 0 →
     st.kernelSettings.vstart = CTRL_Q → st.kernelSettings.vstop = CTRL_S →
      GetFlowControl st true = (.ok .FLOW_CONTROL_SOFTWARE, st)) ∧
    (Nat.land st.kernelSettings.c_iflag IXON = 0 →
     Nat.land st.kernelSettings.c_iflag IXOFF = 0 →
     Nat.land st.kernelSettings.c_cflag CRTSCTS ≠ 0 →
      GetFlowControl st true = (.ok .FLOW_CONTROL_HARDWARE, st)) ∧
    (Nat.land st.kernelSettings.c_iflag IXON = 0 →
     Nat.land st.kernelSettings.c_iflag IXOFF = 0 →
     Nat.land st.kernelSettings.c_cflag CRTSCTS = 0 →
      GetFlowControl st true = (.ok .FLOW_CONTROL_NONE, st)) ∧
    (¬(Nat.land st.kernelSettings.c_iflag IXON ≠ 0 ∧
       Nat.land st.kernelSettings.c_iflag IXOFF ≠ 0 ∧
       st.kernelSettings.vstart = CTRL_Q ∧ st.kernelSettings.vstop = CTRL_S) →
     (Nat.land st.kernelSettings.c_iflag IXON ≠ 0 ∨
      Nat.land st.kernelSettings.c_iflag IXOFF ≠ 0) →
      GetFlowControl st true = (.ok .FLOW_CONTROL_INVALID, st)) := by
  refine ⟨fun hx hf hq hs => ?_, fun hx hf hw => ?_, fun hx hf hw => ?_, fun hns hsome => ?_⟩
  · have hcond : Nat.land st.kernelSettings.c_iflag IXON ≠ 0 ∧
        Nat.land st.kernelSettings.c_iflag IXOFF ≠ 0 ∧
        CTRL_Q = st.kernelSettings.vstart ∧ CTRL_S = st.kernelSettings.vstop :=
      ⟨hx, hf, hq.symm, hs.symm⟩
    simp only [GetFlowControl, hopen, Bool.not_true, Bool.not_false, Bool.false_eq_true,
      if_false, if_true, if_pos hcond]
  · have hcond : ¬(Nat.land st.kernelSettings.c_iflag IXON ≠ 0 ∧
        Nat.land st.kernelSettings.c_iflag IXOFF ≠ 0 ∧
        CTRL_Q = st.kernelSettings.vstart ∧ CTRL_S = st.kernelSettings.vstop) := by
      intro h
      exact h.1 hx
    have hneither : ¬(Nat.land st.kernelSettings.c_iflag IXON ≠ 0 ∨
        Nat.land st.kernelSettings.c_iflag IXOFF ≠ 0) := by
      intro h
      rcases h with h | h
      · exact h hx
      · exact h hf
    simp only [GetFlowControl, hopen, Bool.not_true, Bool.not_false, Bool.false_eq_true,
      if_false, if_true, if_neg hcond, if_pos hneither, if_pos hw]
  · have hcond : ¬(Nat.land st.kernelSettings.c_iflag IXON ≠ 0 ∧
        Nat.land st.kernelSettings.c_iflag IXOFF ≠ 0 ∧
        CTRL_Q = st.kernelSettings.vstart ∧ CTRL_S = st.kernelSettings.vstop) := by
      intro h
      exact h.1 hx
    have hneither : ¬(Nat.land st.kernelSettings.c_iflag IXON ≠ 0 ∨
        Nat.land st.kernelSettings.c_iflag IXOFF ≠ 0) := by
      intro h
      rcases h with h | h
      · exact h hx
      · exact h hf
    have hw' : ¬Nat.land st.kernelSettings.c_cflag CRTSCTS ≠ 0 := by
      intro h
      exact h hw
    simp only [GetFlowControl, hopen, Bool.not_true, Bool.not_false, Bool.false_eq_true,
      if_false, if_true, if_neg hcond, if_pos hneither, if_neg hw']
  · have hcond : ¬(Nat.land st.kernelSettings.c_iflag IXON ≠ 0 ∧
        Nat.land st.kernelSettings.c_iflag IXOFF ≠ 0 ∧
        CTRL_Q = st.kernelSettings.vstart ∧ CTRL_S = st.kernelSettings.vstop) := by
      intro h
      exact hns ⟨h.1, h.2.1, h.2.2.1.symm, h.2.2.2.symm⟩
    have hsome' : ¬¬(Nat.land st.kernelSettings.c_iflag IXON ≠ 0 ∨
        Nat.land st.kernelSettings.c_iflag IXOFF ≠ 0) := fun h => h hsome
    simp only [GetFlowControl, hopen, Bool.not_true, Bool.not_false, Bool.false_eq_true,
      if_false, if_true, if_neg hcond, if_neg hsome']

/-- Claim C6 witness: instantiation at a concrete open port. -/
theorem getflowcontrol_mapping_witness :
    (Nat.land portOpenEmpty.kernelSettings.c_iflag IXON ≠ 0 →
     Nat.land portOpenEmpty.kernelSettings.c_iflag IXOFF ≠ 0 →
     portOpenEmpty.kernelSettings.vstart = CTRL_Q →
     portOpenEmpty.kernelSettings.vstop = CTRL_S →
      GetFlowControl portOpenEmpty true = (.ok .FLOW_CONTROL_SOFTWARE, portOpenEmpty)) ∧
    (Nat.land portOpenEmpty.kernelSettings.c_iflag IXON = 0 →
     Nat.land portOpenEmpty.kernelSettings.c_iflag IXOFF = 0 →
     Nat.land portOpenEmpty.kernelSettings.c_cflag CRTSCTS ≠ 0 →
      GetFlowControl portOpenEmpty true = (.ok .FLOW_CONTROL_HARDWARE, portOpenEmpty)) ∧
    (Nat.land portOpenEmpty.kernelSettings.c_iflag IXON = 0 →
     Nat.land portOpenEmpty.kernelSettings.c_iflag IXOFF = 0 →
     Nat.land portOpenEmpty.kernelSettings.c_cflag CRTSCTS = 0 →
      GetFlowControl portOpenEmpty true = (.ok .FLOW_CONTROL_NONE, portOpenEmpty)) ∧
    (¬(Nat.land portOpenEmpty.kernelSettings.c_iflag IXON ≠ 0 ∧
       Nat.land portOpenEmpty.kernelSettings.c_iflag IXOFF ≠ 0 ∧
       portOpenEmpty.kernelSettings.vstart = CTRL_Q ∧
       portOpenEmpty.kernelSettings.vstop = CTRL_S) →
     (Nat.land portOpenEmpty.kernelSettings.c_iflag IXON ≠ 0 ∨
      Nat.land portOpenEmpty.kernelSettings.c_iflag IXOFF ≠ 0) →
      GetFlowControl portOpenEmpty true = (.ok .FLOW_CONTROL_INVALID, portOpenEmpty)) :=
  getflowcontrol_mapping portOpenEmpty rfl


/-- Claim C7: `Open` on an already-open instance raises `AlreadyOpen`;
`Close` on a closed instance raises `NotOpen`; and every getter, setter,
flush, and I/O operation invoked while the port is closed (file descriptor
equal to the invalid sentinel -1) raises `NotOpen` and leaves the state
unchanged, rather than silently succeeding. -/
theorem closed_state_machine (st sto : SerialState)
    (hclosed : st.mFileDescriptor = -1) (ho : IsOpen sto = true) :
    (∀ (m : Nat) (o : OpenO), Open sto m o = (.error .AlreadyOpen, sto)) ∧
    (∀ a b : Bool, Close st a b = (.error .NotOpen, st)) ∧
    (∀ f : Bool, FlushInputBuffer st f = (.error .NotOpen, st)) ∧
    (∀ f : Bool, FlushOutputBuffer st f = (.error .NotOpen, st)) ∧
    (∀ f : Bool, FlushIOBuffers st f = (.error .NotOpen, st)) ∧
    (∀ o : InitO, InitializeSerialPort st o = (.error .NotOpen, st)) ∧
    (∀ i n : Int, IsDataAvailable st i n = (.error .NotOpen, st)) ∧
    (∀ o : DefaultsO, SetParametersToDefault st o = (.error .NotOpen, st)) ∧
    (∀ (b : Nat) (g c e : Bool), SetBaudRate st b g c e = (.error .NotOpen, st)) ∧
    (∀ g : Bool, GetBaudRate st g = (.error .NotOpen, st)) ∧
    (∀ (c : Nat) (g e : Bool), SetCharacterSize st c g e = (.error .NotOpen, st)) ∧
    (∀ g : Bool, GetCharacterSize st g = (.error .NotOpen, st)) ∧
    (∀ (fc : FlowControl) (f g e : Bool),
      SetFlowControl st fc f g e = (.error .NotOpen, st)) ∧
    (∀ g : Bool, GetFlowControl st g = (.error .NotOpen, st)) ∧
    (∀ (p : Parity) (g e : Bool), SetParity st p g e = (.error .NotOpen, st)) ∧
    (∀ g : Bool, GetParity st g = (.error .NotOpen, st)) ∧
    (∀ (b : StopBits) (g e : Bool),
      SetNumberOfStopBits st b g e = (.error .NotOpen, st)) ∧
    (∀ g : Bool, GetNumberOfStopBits st g = (.error .NotOpen, st)) ∧
    (∀ (v : Int) (g e : Bool), SetVMin st v g e = (.error .NotOpen, st)) ∧
    (∀ g : Bool, GetVMin st g = (.error .NotOpen, st)) ∧
    (∀ (v : Int) (g e : Bool), SetVTime st v g e = (.error .NotOpen, st)) ∧
    (∀ g : Bool, GetVTime st g = (.error .NotOpen, st)) ∧
    (GetFileDescriptor st = (.error .NotOpen, st)) ∧
    (∀ n w : Int, xsputn st n w = (.error .NotOpen, st)) ∧
    (∀ (n : Int) (r : ReadBytes), xsgetn st n r = (.error .NotOpen, st)) ∧
    (∀ c w : Int, overflow st c w = (.error .NotOpen, st)) ∧
    (∀ r : Read1, underflow st r = (.error .NotOpen, st)) ∧
    (∀ r : Read1, uflow st r = (.error .NotOpen, st)) ∧
    (∀ c : Int, pbackfail st c = (.error .NotOpen, st)) ∧
    (∀ (nb ro : Bool) (r : Read1), showmanyc st nb ro r = (.error .NotOpen, st)) := by
  have hcl : IsOpen st = false := by
    simp only [IsOpen, hclosed, bne_self_eq_false]
  refine ⟨fun m o => ?_, fun a b => ?_, fun f => ?_, fun f => ?_, fun f => ?_,
    fun o => ?_, fun i n => ?_, fun o => ?_, fun b g c e => ?_, fun g => ?_,
    fun c g e => ?_, fun g => ?_, fun fc f g e => ?_, fun g => ?_,
    fun p g e => ?_, fun g => ?_, fun b g e => ?_, fun g => ?_,
    fun v g e => ?_, fun g => ?_, fun v g e => ?_, fun g => ?_, ?_,
    fun n w => ?_, fun n r => ?_, fun c w => ?_, fun r => ?_, fun r => ?_,
    fun c => ?_, fun nb ro r => ?_⟩
  · simp only [Open, ho, if_true]
  · simp only [Close, hcl, Bool.not_false, if_true]
  · simp only [FlushInputBuffer, hcl, Bool.not_false, if_true]
  · simp only [FlushOutputBuffer, hcl, Bool.not_false, if_true]
  · simp only [FlushIOBuffers, hcl, Bool.not_false, if_true]
  · simp only [InitializeSerialPort, hcl, Bool.not_false, if_true]
  · simp only [IsDataAvailable, hcl, Bool.not_false, if_true]
  · simp only [SetParametersToDefault, hcl, Bool.not_false, if_true]
  · simp only [SetBaudRate, hcl, Bool.not_false, if_true]
  · simp only [GetBaudRate, hcl, Bool.not_false, if_true]
  · simp only [SetCharacterSize, hcl, Bool.not_false, if_true]
  · simp only [GetCharacterSize, hcl, Bool.not_false, if_true]
  · simp only [SetFlowControl, hcl, Bool.not_false, if_true]
  · simp only [GetFlowControl, hcl, Bool.not_false, if_true]
  · simp only [SetParity, hcl, Bool.not_false, if_true]
  · simp only [GetParity, hcl, Bool.not_false, if_true]
  · simp only [SetNumberOfStopBits, hcl, Bool.not_false, if_true]
  · simp only [GetNumberOfStopBits, hcl, Bool.not_false, if_true]
  · simp only [SetVMin, hcl, Bool.not_false, if_true]
  · simp only [GetVMin, hcl, Bool.not_false, if_true]
  · simp only [SetVTime, hcl, Bool.not_false, if_true]
  · simp only [GetVTime, hcl, Bool.not_false, if_true]
  · simp only [GetFileDescriptor, hcl, Bool.not_false, if_true]
  · simp only [xsputn, hcl, Bool.not_false, if_true]
  · simp only [xsgetn, hcl, Bool.not_false, if_true]
  · simp only [overflow, hcl, Bool.not_false, if_true]
  · simp only [underflow, hcl, Bool.not_false, if_true]
  · simp only [uflow, hcl, Bool.not_false, if_true]
  · simp only [pbackfail, hcl, Bool.not_false, if_true]
  · simp only [showmanyc, hcl, Bool.not_false, if_true]

/-- Claim C7 witness: instantiation at a concrete closed port and a
concrete open port. -/
theorem closed_state_machine_witness :
    (∀ (m : Nat) (o : OpenO),
      Open portOpenEmpty m o = (.error .AlreadyOpen, portOpenEmpty)) ∧
    (∀ a b : Bool, Close portClosed a b = (.error .NotOpen, portClosed)) ∧
    (∀ f : Bool, FlushInputBuffer portClosed f = (.error .NotOpen, portClosed)) ∧
    (∀ f : Bool, FlushOutputBuffer portClosed f = (.error .NotOpen, portClosed)) ∧
    (∀ f : Bool, FlushIOBuffers portClosed f = (.error .NotOpen, portClosed)) ∧
    (∀ o : InitO, InitializeSerialPort portClosed o = (.error .NotOpen, portClosed)) ∧
    (∀ i n : Int, IsDataAvailable portClosed i n = (.error .NotOpen, portClosed)) ∧
    (∀ o : DefaultsO,
      SetParametersToDefault portClosed o = (.error .NotOpen, portClosed)) ∧
    (∀ (b : Nat) (g c e : Bool),
      SetBaudRate portClosed b g c e = (.error .NotOpen, portClosed)) ∧
    (∀ g : Bool, GetBaudRate portClosed g = (.error .NotOpen, portClosed)) ∧
    (∀ (c : Nat) (g e : Bool),
      SetCharacterSize portClosed c g e = (.error .NotOpen, portClosed)) ∧
    (∀ g : Bool, GetCharacterSize portClosed g = (.error .NotOpen, portClosed)) ∧
    (∀ (fc : FlowControl) (f g e : Bool),
      SetFlowControl portClosed fc f g e = (.error .NotOpen, portClosed)) ∧
    (∀ g : Bool, GetFlowControl portClosed g = (.error .NotOpen, portClosed)) ∧
    (∀ (p : Parity) (g e : Bool),
      SetParity portClosed p g e = (.error .NotOpen, portClosed)) ∧
    (∀ g : Bool, GetParity portClosed g = (.error .NotOpen, portClosed)) ∧
    (∀ (b : StopBits) (g e : Bool),
      SetNumberOfStopBits portClosed b g e = (.error .NotOpen, portClosed)) ∧
    (∀ g : Bool, GetNumberOfStopBits portClosed g = (.error .NotOpen, portClosed)) ∧
    (∀ (v : Int) (g e : Bool), SetVMin portClosed v g e = (.error .NotOpen, portClosed)) ∧
    (∀ g : Bool, GetVMin portClosed g = (.error .NotOpen, portClosed)) ∧
    (∀ (v : Int) (g e : Bool), SetVTime portClosed v g e = (.error .NotOpen, portClosed)) ∧
    (∀ g : Bool, GetVTime portClosed g = (.error .NotOpen, portClosed)) ∧
    (GetFileDescriptor portClosed = (.error .NotOpen, portClosed)) ∧
    (∀ n w : Int, xsputn portClosed n w = (.error .NotOpen, portClosed)) ∧
    (∀ (n : Int) (r : ReadBytes), xsgetn portClosed n r = (.error .NotOpen, portClosed)) ∧
    (∀ c w : Int, overflow portClosed c w = (.error .NotOpen, portClosed)) ∧
    (∀ r : Read1, underflow portClosed r = (.error .NotOpen, portClosed)) ∧
    (∀ r : Read1, uflow portClosed r = (.error .NotOpen, portClosed)) ∧
    (∀ c : Int, pbackfail portClosed c = (.error .NotOpen, portClosed)) ∧
    (∀ (nb ro : Bool) (r : Read1),
      showmanyc portClosed nb ro r = (.error .NotOpen, portClosed)) :=
  closed_state_machine portClosed portOpenEmpty rfl rfl

/-- Claim C8: for every open mode other than exactly read-only, write-only,
or read-write, `Open` on a closed instance returns without opening: no
error is raised, and the state (in particular the file descriptor, still
the invalid sentinel -1) is unchanged. -/
theorem open_invalid_mode_noop (st : SerialState) (m : Nat) (o : OpenO)
    (hclosed : st.mFileDescriptor = -1)
    (h1 : m ≠ Nat.lor ios_in ios_out) (h2 : m ≠ ios_in) (h3 : m ≠ ios_out) :
    Open st m o = (.ok (), st) ∧ st.mFileDescriptor = -1 := by
  have hcl : IsOpen st = false := by
    simp only [IsOpen, hclosed, bne_self_eq_false]
  refine ⟨?_, hclosed⟩
  simp only [Open, hcl, Bool.false_eq_true, if_false, if_neg h1, if_neg h2, if_neg h3]

/-- Claim C8 witness: `Open` with the `std::ios_base::app` mode bit (value
1) on a concrete closed port is a no-op. -/
theorem open_invalid_mode_noop_witness :
    Open portClosed 1 ⟨7, true, true, true,
      ⟨⟨true, true, true, true, true, true, true, true, true, true, true, true,
        true, true, true, true, true, true⟩, true, true⟩⟩ = (.ok (), portClosed) ∧
    portClosed.mFileDescriptor = -1 :=
  open_invalid_mode_noop portClosed 1 _ rfl (by decide) (by decide) (by decide)

/-- Claim C9: on an open port, `xsputn` with `n ≤ 0` is a no-op returning 0;
otherwise it issues exactly one underlying write and returns 0 (not an
error) when that write reports an error or zero bytes, and the transferred
byte count otherwise; `overflow` given the eof sentinel writes nothing and
returns eof, and for a concrete character returns eof on failed or zero
transfer and the (non-eof) character itself on success. -/
theorem write_paths (st : SerialState) (hopen : IsOpen st = true) :
    (∀ n w : Int, n ≤ 0 → xsputn st n w = (.ok 0, st)) ∧
    (∀ n w : Int, 0 < n → w ≤ 0 → xsputn st n w = (.ok 0, st)) ∧
    (∀ n w : Int, 0 < n → 0 < w → xsputn st n w = (.ok w, st)) ∧
    (∀ w : Int, overflow st traitsEof w = (.ok traitsEof, st)) ∧
    (∀ c w : Int, c ≠ traitsEof → w ≤ 0 → overflow st c w = (.ok traitsEof, st)) ∧
    (∀ c w : Int, c ≠ traitsEof → 0 < w →
      overflow st c w = (.ok c, st) ∧ c ≠ traitsEof) := by
  refine ⟨fun n w hn => ?_, fun n w hn hw => ?_, fun n w hn hw => ?_,
    fun w => ?_, fun c w hc hw => ?_, fun c w hc hw => ?_⟩
  · simp only [xsputn, hopen, Bool.not_true, Bool.false_eq_true, if_false, if_pos hn]
  · have hn' : ¬(n ≤ 0) := by omega
    simp only [xsputn, hopen, Bool.not_true, Bool.false_eq_true, if_false, if_neg hn',
      if_pos hw]
  · have hn' : ¬(n ≤ 0) := by omega
    have hw' : ¬(w ≤ 0) := by omega
    simp only [xsputn, hopen, Bool.not_true, Bool.false_eq_true, if_false, if_neg hn',
      if_neg hw']
  · simp only [overflow, hopen, Bool.not_true, Bool.false_eq_true, if_false, if_true]
  · simp only [overflow, hopen, Bool.not_true, Bool.false_eq_true, if_false,
      if_neg hc, if_pos hw]
  · have hw' : ¬(w ≤ 0) := by omega
    have hne : notEof c = c := if_neg hc
    refine ⟨?_, hc⟩
    simp only [overflow, hopen, Bool.not_true, Bool.false_eq_true, if_false,
      if_neg hc, if_neg hw', hne]

/-- Claim C9 witness: instantiation at a concrete open port. -/
theorem write_paths_witness :
    (∀ n w : Int, n ≤ 0 → xsputn portOpenEmpty n w = (.ok 0, portOpenEmpty)) ∧
    (∀ n w : Int, 0 < n → w ≤ 0 → xsputn portOpenEmpty n w = (.ok 0, portOpenEmpty)) ∧
    (∀ n w : Int, 0 < n → 0 < w → xsputn portOpenEmpty n w = (.ok w, portOpenEmpty)) ∧
    (∀ w : Int, overflow portOpenEmpty traitsEof w = (.ok traitsEof, portOpenEmpty)) ∧
    (∀ c w : Int, c ≠ traitsEof → w ≤ 0 →
      overflow portOpenEmpty c w = (.ok traitsEof, portOpenEmpty)) ∧
    (∀ c w : Int, c ≠ traitsEof → 0 < w →
      overflow portOpenEmpty c w = (.ok c, portOpenEmpty) ∧ c ≠ traitsEof) :=
  write_paths portOpenEmpty rfl


/-- Claim C10: a successful `Close` modifies only the file descriptor and
the kernel-side settings, never the putback slot; the pending flag and the
stored byte survive a subsequent successful `Open` of the same instance,
so the first `underflow` (readOne) on the reopened port returns the stale
byte from the previous session regardless of what the device would
deliver, without consulting the underlying read. -/
theorem close_open_preserve_putback
    (st st1 st2 : SerialState) (ct cc : Bool) (m : Nat) (o : OpenO)
    (hpb : st.mPutbackAvailable = true)
    (hclose : Close st ct cc = (.ok (), st1))
    (hopen2 : Open st1 m o = (.ok (), st2))
    (hopened : IsOpen st2 = true) :
    (st1 = { st with mFileDescriptor := st1.mFileDescriptor,
                     kernelSettings := st1.kernelSettings }) ∧
    (st1.mPutbackAvailable = true ∧ st1.mPutbackChar = st.mPutbackChar) ∧
    (st2.mPutbackAvailable = true ∧ st2.mPutbackChar = st.mPutbackChar) ∧
    (∀ r : Read1, underflow st2 r = (.ok (toIntType st.mPutbackChar), st2)) := by
  rw [Close] at hclose
  split_ifs at hclose
  · simp at hclose
  · simp at hclose
  · simp at hclose
  · rw [Prod.mk.injEq] at hclose
    have hst1 := hclose.2
    have hsnd : (Open st1 m o).2 = st2 := congrArg Prod.snd hopen2
    have hp2 : pbSlot st2 = pbSlot st1 := by
      rw [← hsnd]
      exact pbSlot_Open st1 m o
    have hp1 : pbSlot st1 = pbSlot st := by
      rw [← hst1]
      rfl
    have h1a : st1.mPutbackAvailable = st.mPutbackAvailable := congrArg Prod.fst hp1
    have h1c : st1.mPutbackChar = st.mPutbackChar := congrArg Prod.snd hp1
    have h2a : st2.mPutbackAvailable = st.mPutbackAvailable :=
      (congrArg Prod.fst hp2).trans h1a
    have h2c : st2.mPutbackChar = st.mPutbackChar :=
      (congrArg Prod.snd hp2).trans h1c
    have hav2 : st2.mPutbackAvailable = true := h2a.trans hpb
    have hframe : st1 =
        { st with
          mFileDescriptor := st1.mFileDescriptor
          kernelSettings := st1.kernelSettings } := by
      rw [← hst1]
    refine ⟨hframe, ⟨h1a.trans hpb, h1c⟩, ⟨hav2, h2c⟩, fun r => ?_⟩
    simp only [underflow, hopened, hav2, Bool.not_true, Bool.false_eq_true, if_false,
      if_true, h2c]

/-- All-success oracle bundle for a reopening `Open` call. -/
def openOracleW : OpenO :=
  ⟨7, true, true, true,
   ⟨⟨true, true, true, true, true, true, true, true, true, true, true, true,
     true, true, true, true, true, true⟩, true, true⟩⟩

/-- The concrete pending port after a successful `Close`. -/
def portReclosed : SerialState := (Close portOpenPending true true).2

/-- The concrete pending port after a successful `Close` and reopening. -/
def portReopened : SerialState := (Open portReclosed 24 openOracleW).2

/-- Claim C10 witness: instantiation at a concrete port with pending
putback byte 65, closed and reopened with all OS calls succeeding. -/
theorem close_open_preserve_putback_witness :
    (portReclosed = { portOpenPending with
        mFileDescriptor := portReclosed.mFileDescriptor,
        kernelSettings := portReclosed.kernelSettings }) ∧
    (portReclosed.mPutbackAvailable = true ∧
     portReclosed.mPutbackChar = portOpenPending.mPutbackChar) ∧
    (portReopened.mPutbackAvailable = true ∧
     portReopened.mPutbackChar = portOpenPending.mPutbackChar) ∧
    (∀ r : Read1, underflow portReopened r =
      (.ok (toIntType portOpenPending.mPutbackChar), portReopened)) :=
  close_open_preserve_putback portOpenPending portReclosed portReopened true true 24
    openOracleW rfl rfl rfl rfl

end LibSerial
